import Mathlib

/-!
Verification of the `burl` example HTTP client of the http_io repository
(`example/client/burl/main.cpp`, `example/client/burl/any_iostream.cpp`).

Each C++ function relevant to the checked properties is translated into an
executable Lean definition; machine strings are modelled as `List Char`
(respectively `List Nat` where raw bytes matter), external effects
(filesystem, sockets, random device) are passed in explicitly.
-/

/-! ## Redirect status classification (`is_redirect`, main.cpp lines 108-132) -/

/-- Result record of `is_redirect` (main.cpp lines 108-112). -/
structure is_redirect_result where
  is_redirect : Bool
  need_method_change : Bool
  deriving DecidableEq, Repr

/-- Translation of `is_redirect` (main.cpp lines 114-132).  The switch is on
`http_proto::status`; we use the numeric status codes:
`moved_permanently = 301`, `found = 302`, `see_other = 303`,
`temporary_redirect = 307`, `permanent_redirect = 308`. -/
def is_redirect (status : Nat) : is_redirect_result :=
  if status = 301 ∨ status = 302 ∨ status = 303 then
    ⟨true, true⟩
  else if status = 307 ∨ status = 308 then
    ⟨true, false⟩
  else
    ⟨false, false⟩

/-- The long option names registered in `main` (main.cpp lines 898-938),
in declaration order. -/
def burl_option_names : List String :=
  [ "compressed", "continue-at", "data", "form", "head", "header", "help",
    "http1.0", "location", "output", "range", "referer", "request",
    "show-headers", "url", "user", "user-agent" ]

/-! ## Connection handling across a redirect hop (main.cpp lines 821-851) -/

/-- An origin: scheme, host, port. -/
structure Origin where
  scheme : String
  host : String
  port : String
  deriving DecidableEq, Repr

/-- Events performed on the transport during one followed redirect hop. -/
inductive StreamEvent where
  | shutdown : StreamEvent
  | connect : Origin → StreamEvent
  deriving DecidableEq, Repr

/-- Observable response data consulted by a redirect hop. -/
structure HopInput where
  currentOrigin : Origin
  targetOrigin : Origin
  responseIsHttp11 : Bool
  connectionClose : Bool
  deriving DecidableEq, Repr

/-- Translation of the connection handling of a followed redirect
(main.cpp lines 826-829): the loop body unconditionally executes
`co_await stream.async_shutdown(...)` followed by
`stream = co_await connect(ssl_ctx, redirect_url)`; no response or origin
data is consulted (the source carries a
`TODO: reuse the established connection when possible`). -/
def redirect_hop_events (inp : HopInput) : List StreamEvent :=
  [StreamEvent.shutdown, StreamEvent.connect inp.targetOrigin]

/-- The hop reuses the established connection iff it neither shuts the
stream down nor opens a new connection. -/
def redirect_hop_reuses (inp : HopInput) : Bool :=
  !(redirect_hop_events inp).contains StreamEvent.shutdown
    && !(redirect_hop_events inp).any (fun e =>
        match e with
        | StreamEvent.connect _ => true
        | StreamEvent.shutdown => false)

/-- Modelled from the spec: the claimed reuse condition — reuse iff the
target origin equals the current origin, the response is HTTP/1.1 and no
`Connection: close` flag is set. -/
def spec_redirect_hop_reuses (inp : HopInput) : Bool :=
  decide (inp.targetOrigin = inp.currentOrigin)
    && inp.responseIsHttp11 && !inp.connectionClose

/-! ## Final clean shutdown (main.cpp lines 885-888) -/

/-- A `boost::system::error_code`: numeric value plus category; the code
converts to `true` in a boolean context iff its value is nonzero. -/
structure ErrorCode where
  val : Nat
  cat : Nat
  deriving DecidableEq, Repr

/-- The category encoding used by this model for the asio SSL error
category. -/
def ssl_category : Nat := 1

/-- `ssl::error::stream_truncated` (peer closed without close-notify):
`SSL_R_SHORT_READ` in the SSL category; the numeric value is opaque and
only compared for equality. -/
def stream_truncated : ErrorCode := ⟨219, ssl_category⟩

/-- Translation of the final clean-shutdown error handling
(main.cpp lines 885-888):
`if(ec && ec != ssl::error::stream_truncated) throw system_error{ ec };`.
`Except.error` models the thrown `system_error`. -/
def final_shutdown_outcome (ec : ErrorCode) : Except ErrorCode Unit :=
  if ec.val ≠ 0 ∧ ec ≠ stream_truncated then
    Except.error ec
  else
    Except.ok ()

/-! ## Output sink selection (`any_ostream`, any_iostream.cpp lines 31-55) -/

/-- The variant held by an `any_ostream`. -/
inductive OStreamTarget where
  | stdoutTarget : OStreamTarget
  | stderrTarget : OStreamTarget
  | fileTarget : String → OStreamTarget
  deriving DecidableEq, Repr

/-- Translation of `any_ostream::any_ostream(core::string_view path)`
(any_iostream.cpp lines 37-55).  `openOk` models whether
`std::ofstream::open(path)` succeeds; on failure the constructor throws
`std::runtime_error{"Couldn't open file"}`, modelled as `Except.error`. -/
def any_ostream_ctor (path : String) (openOk : Bool) :
    Except String OStreamTarget :=
  if path = "-" then
    Except.ok OStreamTarget.stdoutTarget
  else if path = "%" then
    Except.ok OStreamTarget.stderrTarget
  else if openOk then
    Except.ok (OStreamTarget.fileTarget path)
  else
    Except.error "Couldn't open file"

/-- Translation of the default constructor `any_ostream::any_ostream()`
(any_iostream.cpp lines 31-35): it aliases `std::cout`. -/
def any_ostream_default : OStreamTarget := OStreamTarget.stdoutTarget

/-! ## Multipart form (main.cpp lines 371-479)

Byte strings handled by the form are modelled as `List Char` (the C++ code
works on `char` buffers). -/

/-- The character array `chars` of `generate_boundary` (main.cpp lines
468-469) without its trailing NUL: `sizeof(chars) - 2 = 61`, so the
uniform distribution ranges over the indices `0..61` of these 62
characters. -/
def boundary_chars : List Char :=
  "0123456789ABCDEFGHIJKLMNOPQRSTUVWXYZabcdefghijklmnopqrstuvwxyz".toList

/-- Translation of `generate_boundary` (main.cpp lines 463-478): the
50-byte array is filled with `'-'` and then positions `2 + 24` up to
`50 - 2` (that is, 22 positions) are generated from the random draws;
written here as the equal concatenation of the three windows.  `draw i`
models the i-th outcome of `dist(rd)`. -/
def generate_boundary (draw : Nat → Fin 62) : List Char :=
  List.replicate (2 + 24) '-'
    ++ (List.range 22).map
        (fun i => boundary_chars.get (Fin.cast (by decide) (draw i)))
    ++ ['-', '-']

/-- `multipart_form::part_t` (main.cpp lines 373-379). -/
structure part_t where
  name : List Char
  value_or_path : List Char
  content_type : List Char
  file_size : Option Nat
  deriving DecidableEq, Repr

/-- `content_disposition_` (main.cpp lines 386-387). -/
def content_disposition_ : List Char :=
  "\r\nContent-Disposition: form-data; name=\"".toList

/-- `filename_` (main.cpp lines 388-389). -/
def filename_ : List Char := "; filename=\"".toList

/-- `content_type_` (main.cpp lines 390-391). -/
def content_type_ : List Char := "\r\nContent-Type: ".toList

/-- Translation of the free function `filename` (main.cpp lines 70-77):
the suffix after the last `'/'` or `'\\'`, or the whole path when neither
occurs. -/
def filename (path : List Char) : List Char :=
  ((path.reverse.takeWhile (fun c => !(c == '/') && !(c == '\\'))).reverse)

/-- `multipart_form` (main.cpp lines 371-479): the 50-byte `storage_`
(boundary with the extra `--` on both sides) and the part list. -/
structure MultipartForm where
  storage : List Char
  parts : List part_t
  deriving DecidableEq, Repr

/-- Construction of a `multipart_form`: `storage_` is initialised exactly
once, from `generate_boundary()` (main.cpp line 383). -/
def MultipartForm.mk_form (draw : Nat → Fin 62) : MultipartForm :=
  ⟨generate_boundary draw, []⟩

/-- `multipart_form::append_text` (main.cpp lines 396-403). -/
def MultipartForm.append_text (f : MultipartForm)
    (name value content_type : List Char) : MultipartForm :=
  { f with parts := f.parts ++ [⟨name, value, content_type, none⟩] }

/-- `multipart_form::append_file` (main.cpp lines 405-415): the caller
passes the result of `filesize(path)` as `size`; the size is stored
because the file may change on disk between the call to `content_length`
and serialization. -/
def MultipartForm.append_file (f : MultipartForm)
    (name path content_type : List Char) (size : Nat) : MultipartForm :=
  { f with parts := f.parts ++ [⟨name, path, content_type, some size⟩] }

/-- `multipart_form::content_type` (main.cpp lines 417-424): the header
value, appending `storage_.begin() + 2 .. storage_.end() - 2`. -/
def MultipartForm.content_type (f : MultipartForm) : List Char :=
  "multipart/form-data; boundary=".toList
    ++ (f.storage.drop 2).take (f.storage.length - 4)

/-- Translation of `multipart_form::content_length` (main.cpp lines
426-460). -/
def MultipartForm.content_length (f : MultipartForm) : Nat :=
  (f.parts.foldl
    (fun rs part =>
      rs + (f.storage.length - 2)
        + content_disposition_.length
        + part.name.length
        + 1
        + (if part.content_type ≠ [] then
            content_type_.length + part.content_type.length
          else 0)
        + (match part.file_size with
           | some sz =>
              filename_.length + (filename part.value_or_path).length
                + 1 + sz
           | none => part.value_or_path.length)
        + 4 + 2)
    0)
  + f.storage.length

/-! ## The multipart source state machine
(`multipart_form::source::on_read`, main.cpp lines 481-622)

The machine is translated case by case.  `c` is the position of the
statement being executed (the C++ `case` label reached by the `switch`,
by fall-through or by `goto`), `s` is the member `step_`, `skip` the
member `skip_`, `cap` the free space remaining in the mutable buffer
`mb`, and `acc` the bytes emitted so far in this call.  `copy` completes
iff `skip_ + copied == sv.size()`; on completion it resets `skip_` and
execution falls through to the next case, otherwise `on_read` returns.
Note that `goto content_type` and `goto end_of_header` (cases 4 and 7)
do not increment `step_`, so for text parts `step_` does not track the
executing case; this desynchronisation is translated faithfully.
Files are modelled by the snapshot map `fs`; opening and reading never
fails in the model (the file's bytes at serialization time are `fs
path`). -/

/-- One `on_read` call, executing from case `c` with `step_ = s`.  The
result carries the emitted bytes, the remaining parts (`it_` onward),
the final `step_` and `skip_`, and the `finished` flag. -/
structure ReadResult where
  out : List Char
  parts : List part_t
  step : Nat
  skip : Nat
  finished : Bool
  deriving DecidableEq, Repr

/-- The `copy` lambda of `on_read` (main.cpp lines 500-517) followed by
the early `return rs` of the calling case on incompletion:
`copied = min(mb.size, sv.size - skip_)`; the copied bytes extend the
output; completion means `skip_ + copied == sv.size()` (then `skip_`
resets to 0 and execution falls through), otherwise the call returns
with the current part list, `step_ = s` and the advanced `skip_`. -/
def copy_step (sv : List Char) (ret_parts : List part_t)
    (s skip cap : Nat) (acc : List Char) :
    Except ReadResult (Nat × List Char) :=
  let copied := min cap (sv.length - skip)
  let acc2 := acc ++ (sv.drop skip).take copied
  if skip + copied = sv.length then
    Except.ok (cap - copied, acc2)
  else
    Except.error ⟨acc2, ret_parts, s, skip + copied, false⟩

/-- The `read` lambda of `on_read` (main.cpp lines 519-551): seek to
`skip_`, request `min(mb.size, size)` bytes, receive at most what the
file still holds past the seek position; completion means
`skip_ + read == size`. -/
def read_step (content : List Char) (sz : Nat) (ret_parts : List part_t)
    (s skip cap : Nat) (acc : List Char) :
    Except ReadResult (Nat × List Char) :=
  let requested := min cap sz
  let got := min requested (content.length - skip)
  let acc2 := acc ++ (content.drop skip).take got
  if skip + got = sz then
    Except.ok (cap - got, acc2)
  else
    Except.error ⟨acc2, ret_parts, s, skip + got, false⟩

/-! Each C++ `case` of the switch (main.cpp lines 555-612) becomes one
function; fall-through is the call of the next case, `goto` the call of
the jumped-to case.  `s` is the member `step_` — the `goto`s in cases 4
and 7 do not increment it, so for text parts `step_` does not track the
executing case; this desynchronisation is translated faithfully.  An
`Except.ok` from case 11 means `step_ = 0; ++it_`: the while loop
continues with the remaining parts. -/

/-- Case 11: `copy("\r\n")`; on completion `step_ = 0; ++it_`. -/
def part_case11 (p : part_t) (rest : List part_t)
    (s skip cap : Nat) (acc : List Char) :
    Except ReadResult (Nat × List Char) :=
  copy_step ['\r', '\n'] (p :: rest) s skip cap acc

/-- Case 10: the part body — file bytes via `read`, or the text value
via `copy`; then `++step_` and fall through to case 11. -/
def part_case10 (fs : List Char → List Char) (p : part_t)
    (rest : List part_t) (s skip cap : Nat) (acc : List Char) :
    Except ReadResult (Nat × List Char) :=
  match p.file_size with
  | some sz =>
    match read_step (fs p.value_or_path) sz (p :: rest) s skip cap acc with
    | Except.error r => Except.error r
    | Except.ok (cap2, acc2) => part_case11 p rest (s + 1) 0 cap2 acc2
  | none =>
    match copy_step p.value_or_path (p :: rest) s skip cap acc with
    | Except.error r => Except.error r
    | Except.ok (cap2, acc2) => part_case11 p rest (s + 1) 0 cap2 acc2

/-- Case 9 (label `end_of_header`): `copy("\r\n\r\n")`, `++step_`. -/
def part_case9 (fs : List Char → List Char) (p : part_t)
    (rest : List part_t) (s skip cap : Nat) (acc : List Char) :
    Except ReadResult (Nat × List Char) :=
  match copy_step ['\r', '\n', '\r', '\n'] (p :: rest) s skip cap acc with
  | Except.error r => Except.error r
  | Except.ok (cap2, acc2) => part_case10 fs p rest (s + 1) 0 cap2 acc2

/-- Case 8: `copy(it_->content_type)`, `++step_`. -/
def part_case8 (fs : List Char → List Char) (p : part_t)
    (rest : List part_t) (s skip cap : Nat) (acc : List Char) :
    Except ReadResult (Nat × List Char) :=
  match copy_step p.content_type (p :: rest) s skip cap acc with
  | Except.error r => Except.error r
  | Except.ok (cap2, acc2) => part_case9 fs p rest (s + 1) 0 cap2 acc2

/-- Case 7 (label `content_type`): empty content type jumps to
`end_of_header` without touching `step_`; otherwise
`copy(content_type_)`, `++step_`. -/
def part_case7 (fs : List Char → List Char) (p : part_t)
    (rest : List part_t) (s skip cap : Nat) (acc : List Char) :
    Except ReadResult (Nat × List Char) :=
  if p.content_type = [] then
    part_case9 fs p rest s skip cap acc
  else
    match copy_step content_type_ (p :: rest) s skip cap acc with
    | Except.error r => Except.error r
    | Except.ok (cap2, acc2) => part_case8 fs p rest (s + 1) 0 cap2 acc2

/-- Case 6: `copy("\"")`, `++step_`. -/
def part_case6 (fs : List Char → List Char) (p : part_t)
    (rest : List part_t) (s skip cap : Nat) (acc : List Char) :
    Except ReadResult (Nat × List Char) :=
  match copy_step ['"'] (p :: rest) s skip cap acc with
  | Except.error r => Except.error r
  | Except.ok (cap2, acc2) => part_case7 fs p rest (s + 1) 0 cap2 acc2

/-- Case 5: `copy(filename(it_->value_or_path))`, `++step_`. -/
def part_case5 (fs : List Char → List Char) (p : part_t)
    (rest : List part_t) (s skip cap : Nat) (acc : List Char) :
    Except ReadResult (Nat × List Char) :=
  match copy_step (filename p.value_or_path) (p :: rest) s skip cap acc with
  | Except.error r => Except.error r
  | Except.ok (cap2, acc2) => part_case6 fs p rest (s + 1) 0 cap2 acc2

/-- Case 4: a text part jumps to `content_type` without touching
`step_`; a file part does `copy(filename_)`, `++step_`. -/
def part_case4 (fs : List Char → List Char) (p : part_t)
    (rest : List part_t) (s skip cap : Nat) (acc : List Char) :
    Except ReadResult (Nat × List Char) :=
  if p.file_size.isNone then
    part_case7 fs p rest s skip cap acc
  else
    match copy_step filename_ (p :: rest) s skip cap acc with
    | Except.error r => Except.error r
    | Except.ok (cap2, acc2) => part_case5 fs p rest (s + 1) 0 cap2 acc2

/-- Case 3: `copy("\"")`, `++step_`. -/
def part_case3 (fs : List Char → List Char) (p : part_t)
    (rest : List part_t) (s skip cap : Nat) (acc : List Char) :
    Except ReadResult (Nat × List Char) :=
  match copy_step ['"'] (p :: rest) s skip cap acc with
  | Except.error r => Except.error r
  | Except.ok (cap2, acc2) => part_case4 fs p rest (s + 1) 0 cap2 acc2

/-- Case 2: `copy(it_->name)`, `++step_`. -/
def part_case2 (fs : List Char → List Char) (p : part_t)
    (rest : List part_t) (s skip cap : Nat) (acc : List Char) :
    Except ReadResult (Nat × List Char) :=
  match copy_step p.name (p :: rest) s skip cap acc with
  | Except.error r => Except.error r
  | Except.ok (cap2, acc2) => part_case3 fs p rest (s + 1) 0 cap2 acc2

/-- Case 1: `copy(content_disposition_)`, `++step_`. -/
def part_case1 (fs : List Char → List Char) (p : part_t)
    (rest : List part_t) (s skip cap : Nat) (acc : List Char) :
    Except ReadResult (Nat × List Char) :=
  match copy_step content_disposition_ (p :: rest) s skip cap acc with
  | Except.error r => Except.error r
  | Except.ok (cap2, acc2) => part_case2 fs p rest (s + 1) 0 cap2 acc2

/-- Case 0: `copy` of the leading `--boundary` (the first
`storage_.size() - 2` bytes), `++step_`. -/
def part_case0 (storage : List Char) (fs : List Char → List Char)
    (p : part_t) (rest : List part_t) (s skip cap : Nat)
    (acc : List Char) : Except ReadResult (Nat × List Char) :=
  match copy_step (storage.take (storage.length - 2)) (p :: rest)
      s skip cap acc with
  | Except.error r => Except.error r
  | Except.ok (cap2, acc2) => part_case1 fs p rest (s + 1) 0 cap2 acc2

/-- The `switch (step_)` dispatch: enter the case chain at case `c`.
A value of `c` above 11 matches no case; the C++ switch would fall out
and loop forever making no progress, modelled as returning with the
state unchanged (unreachable: `step_` never exceeds 11). -/
def part_run (storage : List Char) (fs : List Char → List Char)
    (p : part_t) (rest : List part_t) (c s skip cap : Nat)
    (acc : List Char) : Except ReadResult (Nat × List Char) :=
  match c with
  | 0 => part_case0 storage fs p rest s skip cap acc
  | 1 => part_case1 fs p rest s skip cap acc
  | 2 => part_case2 fs p rest s skip cap acc
  | 3 => part_case3 fs p rest s skip cap acc
  | 4 => part_case4 fs p rest s skip cap acc
  | 5 => part_case5 fs p rest s skip cap acc
  | 6 => part_case6 fs p rest s skip cap acc
  | 7 => part_case7 fs p rest s skip cap acc
  | 8 => part_case8 fs p rest s skip cap acc
  | 9 => part_case9 fs p rest s skip cap acc
  | 10 => part_case10 fs p rest s skip cap acc
  | 11 => part_case11 p rest s skip cap acc
  | _ => Except.error ⟨acc, p :: rest, s, skip, false⟩

/-- The `while (it_ != end)` loop of `on_read` plus the closing
`--boundary--` copy after it (main.cpp lines 553-621): each part is
entered at case `step_`; when a part completes, the loop continues with
the remaining parts at `step_ = 0`, `skip_ = 0`; when the parts are
exhausted, the whole 50-byte storage is copied and `finished` is set on
completion. -/
def source_loop (storage : List Char) (fs : List Char → List Char) :
    List part_t → Nat → Nat → Nat → List Char → ReadResult
  | [], s, skip, cap, acc =>
    let sv := storage
    let copied := min cap (sv.length - skip)
    let acc2 := acc ++ (sv.drop skip).take copied
    if skip + copied = sv.length then
      ⟨acc2, [], s, 0, true⟩
    else
      ⟨acc2, [], s, skip + copied, false⟩
  | p :: rest, s, skip, cap, acc =>
    match part_run storage fs p rest s s skip cap acc with
    | Except.error r => r
    | Except.ok (cap2, acc2) => source_loop storage fs rest 0 0 cap2 acc2

/-- One call of `on_read` on a mutable buffer of `cap` bytes: execution
starts at the case selected by `step_`. -/
def source_on_read (storage : List Char) (fs : List Char → List Char)
    (parts : List part_t) (step skip cap : Nat) : ReadResult :=
  source_loop storage fs parts step skip cap []

/-- Driving the source with a sequence of buffer capacities: each
capacity is one `on_read` call; returns all bytes produced and whether
the source reported `finished`. -/
def source_drive (storage : List Char) (fs : List Char → List Char) :
    List part_t → Nat → Nat → List Nat → (List Char × Bool)
  | _, _, _, [] => ([], false)
  | parts, step, skip, cap :: caps =>
    let r := source_on_read storage fs parts step skip cap
    if r.finished then (r.out, true)
    else
      let rest := source_drive storage fs r.parts r.step r.skip caps
      (r.out ++ rest.1, rest.2)

/-! ## Urlencoded form (main.cpp lines 292-369)

Raw bytes are modelled as `Nat` values below 256. -/

/-- The `unreserved` URL character set (ALPHA / DIGIT / `-` / `.` / `_` /
`~`), on byte values. -/
def is_unreserved (b : Nat) : Bool :=
  (48 ≤ b && b ≤ 57) || (65 ≤ b && b ≤ 90) || (97 ≤ b && b ≤ 122)
    || b == 45 || b == 46 || b == 95 || b == 126

/-- The `sub-delims` URL character set
`! $ & ' ( ) * + , ; =`, on byte values. -/
def is_sub_delim (b : Nat) : Bool :=
  b == 33 || b == 36 || b == 38 || b == 39 || b == 40 || b == 41
    || b == 42 || b == 43 || b == 44 || b == 59 || b == 61

/-- `urls::pchars`: `unreserved / sub-delims / ":" / "@"`. -/
def is_pchar (b : Nat) : Bool :=
  is_unreserved b || is_sub_delim b || b == 58 || b == 64

/-- Uppercase hexadecimal digit of a value below 16, as a byte. -/
def hex_digit (n : Nat) : Nat :=
  if n < 10 then 48 + n else 55 + n

/-- `urls::encode` applied to one byte with the `pchars` allowed set and
`space_as_plus = true` (the behaviour invoked by
`urlencoded_form::append_encoded`, main.cpp lines 358-368): a space
becomes `'+'`, an allowed character is copied verbatim, anything else is
percent-escaped. -/
def pct_encode_byte (b : Nat) : List Nat :=
  if b = 32 then [43]
  else if is_pchar b then [b]
  else [37, hex_digit (b / 16), hex_digit (b % 16)]

/-- `urlencoded_form::append_encoded` on a byte string (the encoder is
applied byte by byte). -/
def urlencoded_encode (sv : List Nat) : List Nat :=
  (sv.map pct_encode_byte).flatten

/-- `urlencoded_form::append_text` (main.cpp lines 298-309): `&` between
pairs, the name verbatim, `=` when the value is nonempty, the value
encoded. -/
def urlencoded_append_text (body name value : List Nat) : List Nat :=
  let b1 := if body = [] then body else body ++ [38]
  let b2 := b1 ++ name
  let b3 := if value = [] then b2 else b2 ++ [61]
  b3 ++ urlencoded_encode value

/-- `urlencoded_form::append_file` (main.cpp lines 311-337): `&` between
pairs, then the file's bytes through the same encoder (the 64 KiB
chunking cannot change the result of a byte-wise encoder). -/
def urlencoded_append_file (body content : List Nat) : List Nat :=
  (if body = [] then body else body ++ [38]) ++ urlencoded_encode content

/-- Value of a hexadecimal digit byte (either case), 0 otherwise. -/
def hex_val (c : Nat) : Nat :=
  if 48 ≤ c ∧ c ≤ 57 then c - 48
  else if 65 ≤ c ∧ c ≤ 70 then c - 55
  else if 97 ≤ c ∧ c ≤ 102 then c - 87
  else 0

/-- Modelled from the spec: the urlencoded decoder used by the round-trip
property ("round-trip via decoder yields the original bytes", spec §8) —
the repository contains no decoder.  `%XY` becomes the byte `XY`, `+`
becomes space, every other byte is literal; a truncated escape ends the
output. -/
def pct_decode_plus : List Nat → List Nat
  | [] => []
  | 37 :: h :: l :: rest =>
    (16 * hex_val h + hex_val l) :: pct_decode_plus rest
  | [37, _] => []
  | [37] => []
  | 43 :: rest => 32 :: pct_decode_plus rest
  | c :: rest => c :: pct_decode_plus rest

/-! ## Request and header-field model (http_proto::request as used here)

A request is its method, version, target and ordered field list.
`set` replaces the value of an existing field (dropping duplicates) or
appends a new one; `erase` removes a field. -/

abbrev Fields := List (String × String)

/-- Remove every field named `name`. -/
def eraseField : Fields → String → Fields
  | [], _ => []
  | (n, v) :: rest, name =>
    if n == name then eraseField rest name
    else (n, v) :: eraseField rest name

/-- Set the field `name` to `value`: replace the first occurrence in
place (dropping later duplicates), or append. -/
def setField : Fields → String → String → Fields
  | [], name, value => [(name, value)]
  | (n, v) :: rest, name, value =>
    if n == name then (name, value) :: eraseField rest name
    else (n, v) :: setField rest name value

/-- The value of the field `name`, when present. -/
def findField (fs : Fields) (name : String) : Option String :=
  (fs.find? (fun p => p.1 == name)).map (fun p => p.2)

/-- The request message being built. -/
structure Request where
  method : String
  isHttp11 : Bool
  tgt : String
  fields : Fields
  deriving DecidableEq, Repr

/-- The `message` body spec (main.cpp lines 624-688):
`std::variant<std::monostate, urlencoded_form, multipart_form>`. -/
inductive Msg where
  | monostate : Msg
  | urlencoded : List Nat → Msg
  | multipart : MultipartForm → Msg
  deriving DecidableEq, Repr

/-- `message::set_headers` (main.cpp lines 643-660): for a non-monostate
body, set the method to POST, the Content-Length and the Content-Type
(`urlencoded_form::content_type` is the fixed string, main.cpp lines
339-343; `urlencoded_form::content_length` is the body size, lines
345-349). -/
def Msg.set_headers (m : Msg) (req : Request) : Request :=
  match m with
  | Msg.monostate => req
  | Msg.urlencoded body =>
    { req with
        method := "POST",
        fields :=
          setField
            (setField req.fields "Content-Length" (toString body.length))
            "Content-Type" "application/x-www-form-urlencoded" }
  | Msg.multipart f =>
    { req with
        method := "POST",
        fields :=
          setField
            (setField req.fields "Content-Length"
              (toString f.content_length))
            "Content-Type" (String.mk f.content_type) }

/-- Translation of the redirect method-change rewrite (main.cpp lines
831-838): when the status needed a method change and the `--head` option
was not given, set the method to GET, set `Content-Length` to 0, erase
`Content-Type`, and drop the body spec; otherwise leave request and body
untouched. -/
def redirect_method_rewrite (headFlag needMethodChange : Bool)
    (req : Request) (msg : Msg) : Request × Msg :=
  if needMethodChange && !headFlag then
    ({ req with
        method := "GET",
        fields :=
          eraseField (setField req.fields "Content-Length" "0")
            "Content-Type" },
      Msg.monostate)
  else
    (req, msg)

/-- Modelled from the spec: the claimed rewrite (spec §4.6 step 12) —
when the redirect indicated a method change and the method is not HEAD,
rewrite to GET and erase `Content-Length`, `Content-Type`,
`Content-Encoding` and `Expect`, and drop the body spec. -/
def spec_redirect_method_rewrite (needMethodChange : Bool)
    (req : Request) (msg : Msg) : Request × Msg :=
  if needMethodChange && !(req.method == "HEAD") then
    ({ req with
        method := "GET",
        fields :=
          eraseField
            (eraseField
              (eraseField (eraseField req.fields "Content-Length")
                "Content-Type")
              "Content-Encoding")
            "Expect" },
      Msg.monostate)
  else
    (req, msg)

/-! ## Request construction (`create_request`, main.cpp lines 720-788) -/

/-- The parsed URL data consulted by `create_request` and `main`. -/
structure Url where
  scheme : String
  host : String
  port : Option String
  userinfo : Option String
  encoded_target : String
  deriving DecidableEq, Repr

/-- Translation of the free function `target` (main.cpp lines 99-106):
the URL's encoded target, or `"/"` when it is empty. -/
def url_target (u : Url) : String :=
  if u.encoded_target = "" then "/" else u.encoded_target

/-- The option values parsed by `main` (the `variables_map`); a `none` /
`false` / `[]` entry means the option was not supplied. -/
structure Vm where
  compressed : Bool
  continue_at : Option Nat
  data : List String
  form : List String
  head : Bool
  header : List String
  help : Bool
  http10 : Bool
  location : Bool
  output : Option String
  range : Option String
  referer : Option String
  request : Option String
  show_headers : Bool
  url : Option String
  user : Option String
  user_agent : Option String
  deriving DecidableEq, Repr

/-- Splitting of a user-supplied `-H` header at its first `':'`
(main.cpp lines 780-784); entries without a colon are skipped. -/
def header_split (h : String) : Option (String × String) :=
  match h.toList.findIdx? (fun c => c == ':') with
  | none => none
  | some pos => some (⟨h.toList.take pos⟩, ⟨h.toList.drop (pos + 1)⟩)

/-- Translation of `create_request` (main.cpp lines 720-788), step by
step in source order.  `has_zlib` is the compile-time
`http_proto_has_zlib` flag.  Note line 770-771: the `Authorization`
value is the raw `--user` string (the source carries a
`TODO: use base64 encoding for basic authentication`), and the URL's
userinfo is never consulted. -/
def create_request (has_zlib : Bool) (vm : Vm) (msg : Msg) (url : Url) :
    Request :=
  let r0 : Request := { method := "GET", isHttp11 := true, tgt := "/",
                        fields := [] }
  let r1 := { r0 with method := if vm.head then "HEAD" else "GET" }
  let r2 := match vm.request with
            | some m => { r1 with method := m }
            | none => r1
  let r3 := { r2 with isHttp11 := !vm.http10 }
  let r4 := { r3 with tgt := url_target url }
  let r5 := { r4 with fields := setField r4.fields "Accept" "*/*" }
  let r6 := { r5 with fields := setField r5.fields "Host" url.host }
  let r7 := msg.set_headers r6
  let r8 := match vm.continue_at with
            | some off =>
              let v := "bytes=" ++ toString off ++ "-"
              { r7 with fields := setField r7.fields "Range" v }
            | none => r7
  let r9 := match vm.range with
            | some rg =>
              let v := "bytes=" ++ rg
              { r8 with fields := setField r8.fields "Range" v }
            | none => r8
  let r10 := match vm.user_agent with
             | some ua =>
               { r9 with fields := setField r9.fields "User-Agent" ua }
             | none =>
               let v := "Boost.Http.Io"
               { r9 with fields := setField r9.fields "User-Agent" v }
  let r11 := match vm.referer with
             | some rf =>
               { r10 with fields := setField r10.fields "Referer" rf }
             | none => r10
  let r12 := match vm.user with
             | some u =>
               { r11 with fields := setField r11.fields "Authorization" u }
             | none => r11
  let r13 := if vm.compressed && has_zlib then
               let v := "gzip, deflate"
               { r12 with fields := setField r12.fields "Accept-Encoding" v }
             else r12
  vm.header.foldl
    (fun r h =>
      match header_split h with
      | some nv => { r with fields := setField r.fields nv.1 nv.2 }
      | none => r)
    r13

/-- Modelled from the spec: standard base64 of a byte string (spec §4.6:
`Authorization: Basic base64(creds)`); the repository contains no base64
encoder. -/
def base64_alphabet : List Char :=
  "ABCDEFGHIJKLMNOPQRSTUVWXYZabcdefghijklmnopqrstuvwxyz0123456789+/".toList

/-- Modelled from the spec: base64 encoding with `'='` padding. -/
def base64_encode : List Nat → List Char
  | [] => []
  | [b1] =>
    [base64_alphabet.getD (b1 / 4) 'A',
     base64_alphabet.getD (b1 % 4 * 16) 'A', '=', '=']
  | [b1, b2] =>
    [base64_alphabet.getD (b1 / 4) 'A',
     base64_alphabet.getD (b1 % 4 * 16 + b2 / 16) 'A',
     base64_alphabet.getD (b2 % 16 * 4) 'A', '=']
  | b1 :: b2 :: b3 :: rest =>
    [base64_alphabet.getD (b1 / 4) 'A',
     base64_alphabet.getD (b1 % 4 * 16 + b2 / 16) 'A',
     base64_alphabet.getD (b2 % 16 * 4 + b3 / 64) 'A',
     base64_alphabet.getD (b3 % 64) 'A']
      ++ base64_encode rest

/-- Modelled from the spec: the claimed Authorization value for supplied
credentials, `"Basic " ++ base64(creds)`. -/
def spec_basic_authorization (creds : String) : String :=
  "Basic " ++ String.mk (base64_encode (creds.toList.map Char.toNat))

/-! ## The configuration phase of `main` (main.cpp lines 891-1086) -/

/-- `mime_type` (main.cpp lines 45-68): extension-based content type,
compared case-insensitively; the extension is the suffix from the last
`'.'` (inclusive), empty when there is no dot. -/
def mime_type (path : List Char) : List Char :=
  let revTail := path.reverse.takeWhile (fun c => !(c == '.'))
  let ext := if revTail.length = path.length then []
             else '.' :: revTail.reverse
  let extLower := ext.map Char.toLower
  if extLower = ".gif".toList then "image/gif".toList
  else if extLower = ".jpg".toList then "image/jpeg".toList
  else if extLower = ".jpeg".toList then "image/jpeg".toList
  else if extLower = ".png".toList then "image/png".toList
  else if extLower = ".svg".toList then "image/svg+xml".toList
  else if extLower = ".txt".toList then "text/plain".toList
  else if extLower = ".htm".toList then "text/html".toList
  else if extLower = ".html".toList then "text/html".toList
  else if extLower = ".pdf".toList then "application/pdf".toList
  else if extLower = ".xml".toList then "application/xml".toList
  else "application/octet-stream".toList

/-- Building of the multipart form from the `--form` arguments
(main.cpp lines 1005-1033).  `fs` maps a path to the file bytes, `none`
when the file cannot be opened (then `filesize` throws, modelled as the
error string `"file error"`); an argument without `'='` throws
`"Illegally formatted input field"`. -/
def build_multipart (draw : Nat → Fin 62)
    (fs : List Char → Option (List Char)) (entries : List String) :
    Except String MultipartForm :=
  entries.foldlM
    (fun f data =>
      match data.toList.findIdx? (fun c => c == '=') with
      | some pos =>
        let name := data.toList.take pos
        let value := data.toList.drop (pos + 1)
        if value.head? = some '@' then
          match fs (value.drop 1) with
          | some content =>
            Except.ok (f.append_file name (value.drop 1)
              (mime_type (value.drop 1)) content.length)
          | none => Except.error "file error"
        else
          Except.ok (f.append_text name value [])
      | none => Except.error "Illegally formatted input field")
    (MultipartForm.mk_form draw)

/-- Building of the urlencoded body from the `--data` arguments
(main.cpp lines 1035-1060): `@path` streams the file through the
encoder, `name=value` encodes the value, a bare `name` gets an empty
value. -/
def build_urlencoded (fs : List Char → Option (List Char))
    (entries : List String) : Except String (List Nat) :=
  entries.foldlM
    (fun body data =>
      if data.toList.head? = some '@' then
        match fs (data.toList.drop 1) with
        | some content =>
          Except.ok (urlencoded_append_file body
            (content.map Char.toNat))
        | none => Except.error "file error"
      else
        match data.toList.findIdx? (fun c => c == '=') with
        | some pos =>
          Except.ok (urlencoded_append_text body
            ((data.toList.take pos).map Char.toNat)
            ((data.toList.drop (pos + 1)).map Char.toNat))
        | none =>
          Except.ok (urlencoded_append_text body
            (data.toList.map Char.toNat) []))
    []

/-- Outcome of the configuration phase of `main`. -/
inductive MainResult where
  | usage : MainResult
  | urlError : MainResult
  | outputError : MainResult
  | thrown : String → MainResult
  | run : Request → MainResult
  deriving DecidableEq, Repr

/-- Translation of the configuration phase of `main` (main.cpp lines
952-1076), in source order: the usage check, URL parsing, output-sink
construction, the `--form`/`--data` exclusivity check, form building,
then `create_request` and the spawned `request(...)` coroutine (the
`run` outcome carries the request it is attempted with).  `parse` models
`urls::parse_uri`; `outputOk` models whether the `--output` file opens. -/
def main_phase (parse : String → Option Url) (draw : Nat → Fin 62)
    (fs : List Char → Option (List Char)) (outputOk has_zlib : Bool)
    (vm : Vm) : MainResult :=
  if vm.help || vm.url.isNone then MainResult.usage
  else
    match parse (vm.url.getD "") with
    | none => MainResult.urlError
    | some url =>
      if vm.output.isSome && !outputOk then MainResult.outputError
      else if vm.form ≠ [] ∧ vm.data ≠ [] then
        MainResult.thrown "You can only select one HTTP request method"
      else
        let msg : Except String Msg :=
          if vm.form ≠ [] then
            (build_multipart draw fs vm.form).map Msg.multipart
          else if vm.data ≠ [] then
            (build_urlencoded fs vm.data).map Msg.urlencoded
          else
            Except.ok Msg.monostate
        match msg with
        | Except.error e => MainResult.thrown e
        | Except.ok m => MainResult.run (create_request has_zlib vm m url)

/-- The exit code determined by the configuration phase: every
non-`run` outcome exits with `EXIT_FAILURE` (1); a `run` outcome's exit
code is decided later by the request coroutine. -/
def config_exit_code : MainResult → Option Nat
  | MainResult.usage => some 1
  | MainResult.urlError => some 1
  | MainResult.outputError => some 1
  | MainResult.thrown _ => some 1
  | MainResult.run _ => none

/-! ## Concrete instances used by the evaluation theorems -/

/-- A fixed draw: every random outcome is 0, so the 22 generated
boundary characters are all `'0'`. -/
def draw0 : Nat → Fin 62 := fun _ => ⟨0, by decide⟩

/-- An empty snapshot filesystem. -/
def fs0 : List Char → List Char := fun _ => []

/-- A one-part form: the text part `name="a"`, value `"bc"`, no content
type — as built by `--form a=bc`. -/
def c1_form : MultipartForm :=
  (MultipartForm.mk_form draw0).append_text "a".toList "bc".toList []

/-- A request carrying the body-induced headers (as after
`msg.set_headers`) together with `Content-Encoding` and `Expect`. -/
def c3_req : Request :=
  { method := "POST", isHttp11 := true, tgt := "/p",
    fields := [("Host", "h"), ("Content-Length", "5"),
               ("Content-Type", "text/plain"),
               ("Content-Encoding", "gzip"),
               ("Expect", "100-continue")] }

/-- The same request with method `PUT` (as built by `--head -X PUT`). -/
def c3_req_put : Request := { c3_req with method := "PUT" }

/-- A `variables_map` supplying credentials via `--user bob:pw`. -/
def c6_vm : Vm :=
  { compressed := false, continue_at := none, data := [], form := [],
    head := false, header := [], help := false, http10 := false,
    location := false, output := none, range := none, referer := none,
    request := none, show_headers := false,
    url := some "http://alice:secret@h/", user := some "bob:pw",
    user_agent := none }

/-- The same invocation without `--user` (credentials only in the URL's
userinfo). -/
def c6_vm_nouser : Vm := { c6_vm with user := none }

/-- The parsed URL of the C6 invocation: its userinfo carries
credentials. -/
def c6_url : Url :=
  { scheme := "http", host := "h", port := none,
    userinfo := some "alice:secret", encoded_target := "/" }

/-- A `variables_map` supplying both `--form a=b` and `--data c=d`. -/
def c9_vm : Vm :=
  { compressed := false, continue_at := none, data := ["c=d"],
    form := ["a=b"], head := false, header := [], help := false,
    http10 := false, location := false, output := none, range := none,
    referer := none, request := none, show_headers := false,
    url := some "http://h/", user := none, user_agent := none }

/-! ## Theorems: C4, C2, C10, C8 -/

/-- C4 counterexample: the claim asserts per-status `--post301`, `--post302`
and `--post303` override switches that suppress the method change; the
program registers no such options, and `is_redirect` takes no override
input — the method change for 301 is unconditional. -/
theorem C4_counterexample :
    burl_option_names.contains "post301" = false
    ∧ burl_option_names.contains "post302" = false
    ∧ burl_option_names.contains "post303" = false
    ∧ (is_redirect 301).need_method_change = true := by
  decide

/-- C4 (amended): `is_redirect` returns `(true, true)` exactly for statuses
301, 302 and 303, `(true, false)` exactly for 307 and 308, and
`(false, false)` for every other status; there are no `--post30x` override
switches (the method change cannot be suppressed). -/
theorem C4_amended (status : Nat) :
    ((is_redirect status).is_redirect = true
      ↔ (status = 301 ∨ status = 302 ∨ status = 303
         ∨ status = 307 ∨ status = 308))
    ∧ ((is_redirect status).need_method_change = true
      ↔ (status = 301 ∨ status = 302 ∨ status = 303))
    ∧ burl_option_names.contains "post301" = false
    ∧ burl_option_names.contains "post302" = false
    ∧ burl_option_names.contains "post303" = false := by
  refine ⟨?_, ?_, by decide, by decide, by decide⟩ <;>
    · unfold is_redirect
      split_ifs with h1 h2 <;> simp_all <;> tauto

/-- C2 counterexample: at a hop whose redirect target has the identical
origin, with an HTTP/1.1 response and no `Connection: close`, the claim
requires the connection to be reused, but the code shuts the stream down
and opens a new connection. -/
theorem C2_counterexample :
    redirect_hop_reuses
      ⟨⟨"https", "example.com", "443"⟩, ⟨"https", "example.com", "443"⟩,
        true, false⟩ = false
    ∧ spec_redirect_hop_reuses
      ⟨⟨"https", "example.com", "443"⟩, ⟨"https", "example.com", "443"⟩,
        true, false⟩ = true := by
  decide

/-- C2 (amended): the executor never reuses the connection across a
followed redirect hop: regardless of target origin, response version and
`Connection: close`, it always shuts the stream down and connects anew to
the redirect target. -/
theorem C2_amended (inp : HopInput) :
    redirect_hop_reuses inp = false
    ∧ redirect_hop_events inp =
        [StreamEvent.shutdown, StreamEvent.connect inp.targetOrigin] := by
  constructor
  · rfl
  · rfl

/-- C10 (confirmed): during the final clean shutdown, an error equal to the
TLS `stream_truncated` condition (and, trivially, a zero error code) is
treated as success and not propagated, while every other shutdown error is
raised as a fatal `system_error`. -/
theorem C10_shutdown (ec : ErrorCode) (c : Nat)
    (h0 : ec.val ≠ 0) (h1 : ec ≠ stream_truncated) :
    final_shutdown_outcome stream_truncated = Except.ok ()
    ∧ final_shutdown_outcome ⟨0, c⟩ = Except.ok ()
    ∧ final_shutdown_outcome ec = Except.error ec := by
  refine ⟨by simp [final_shutdown_outcome], ?_, ?_⟩
  · simp [final_shutdown_outcome]
  · simp [final_shutdown_outcome, h0, h1]

/-- C10 witness: the connection-reset-style error `⟨104, 0⟩` (not the
truncated condition) is raised, while `stream_truncated` is swallowed. -/
theorem C10_shutdown_witness :
    final_shutdown_outcome stream_truncated = Except.ok ()
    ∧ final_shutdown_outcome ⟨0, 0⟩ = Except.ok ()
    ∧ final_shutdown_outcome ⟨104, 0⟩ = Except.error ⟨104, 0⟩ :=
  C10_shutdown ⟨104, 0⟩ 0 (by decide) (by decide)

/-- C8 (confirmed): the sink constructor maps its path token totally:
`"-"` yields the stdout sink, `"%"` yields the stderr sink, any other
string yields a file sink when the file opens and the fatal error
`"Couldn't open file"` otherwise; a default-constructed sink aliases
stdout. -/
theorem C8_ctor (path : String) (openOk : Bool)
    (h1 : path ≠ "-") (h2 : path ≠ "%") :
    any_ostream_ctor "-" openOk = Except.ok OStreamTarget.stdoutTarget
    ∧ any_ostream_ctor "%" openOk = Except.ok OStreamTarget.stderrTarget
    ∧ any_ostream_ctor path true = Except.ok (OStreamTarget.fileTarget path)
    ∧ any_ostream_ctor path false = Except.error "Couldn't open file"
    ∧ any_ostream_default = OStreamTarget.stdoutTarget := by
  refine ⟨?_, ?_, ?_, ?_, rfl⟩ <;> simp [any_ostream_ctor, h1, h2]

/-- C8 witness: instantiated at the path `"out.bin"` for both open
outcomes. -/
theorem C8_ctor_witness :
    any_ostream_ctor "-" true = Except.ok OStreamTarget.stdoutTarget
    ∧ any_ostream_ctor "%" true = Except.ok OStreamTarget.stderrTarget
    ∧ any_ostream_ctor "out.bin" true =
        Except.ok (OStreamTarget.fileTarget "out.bin")
    ∧ any_ostream_ctor "out.bin" false = Except.error "Couldn't open file"
    ∧ any_ostream_default = OStreamTarget.stdoutTarget :=
  C8_ctor "out.bin" true (by decide) (by decide)

/-! ## Header-field lemmas -/

theorem findField_cons (n v name : String) (l : Fields) :
    findField ((n, v) :: l) name =
      if n = name then some v else findField l name := by
  by_cases h : n = name
  · simp [findField, List.find?, h]
  · have hb : (n == name) = false := beq_eq_false_iff_ne.mpr h
    simp [findField, List.find?, hb, h]

theorem eraseField_cons_eq (n v : String) (rest : Fields) (name : String)
    (h : n = name) :
    eraseField ((n, v) :: rest) name = eraseField rest name := by
  simp [eraseField, h]

theorem eraseField_cons_ne (n v : String) (rest : Fields) (name : String)
    (h : n ≠ name) :
    eraseField ((n, v) :: rest) name = (n, v) :: eraseField rest name := by
  have hb : (n == name) = false := beq_eq_false_iff_ne.mpr h
  simp [eraseField, hb]

theorem setField_cons_eq (n v : String) (rest : Fields)
    (name value : String) (h : n = name) :
    setField ((n, v) :: rest) name value =
      (name, value) :: eraseField rest name := by
  simp [setField, h]

theorem setField_cons_ne (n v : String) (rest : Fields)
    (name value : String) (h : n ≠ name) :
    setField ((n, v) :: rest) name value =
      (n, v) :: setField rest name value := by
  have hb : (n == name) = false := beq_eq_false_iff_ne.mpr h
  simp [setField, hb]

theorem findField_eraseField_self (fs : Fields) (name : String) :
    findField (eraseField fs name) name = none := by
  induction fs with
  | nil => rfl
  | cons p rest ih =>
    obtain ⟨n, v⟩ := p
    by_cases h : n = name
    · rw [eraseField_cons_eq n v rest name h]; exact ih
    · rw [eraseField_cons_ne n v rest name h, findField_cons,
        if_neg h]
      exact ih

theorem findField_eraseField_ne (fs : Fields) (name other : String)
    (h : other ≠ name) :
    findField (eraseField fs name) other = findField fs other := by
  induction fs with
  | nil => rfl
  | cons p rest ih =>
    obtain ⟨n, v⟩ := p
    by_cases hn : n = name
    · rw [eraseField_cons_eq n v rest name hn, ih, findField_cons,
        if_neg (fun he => h (he.symm.trans hn))]
    · rw [eraseField_cons_ne n v rest name hn, findField_cons,
        findField_cons, ih]

theorem findField_setField_self (fs : Fields) (name value : String) :
    findField (setField fs name value) name = some value := by
  induction fs with
  | nil => rw [show setField [] name value = [(name, value)] from rfl,
      findField_cons, if_pos rfl]
  | cons p rest ih =>
    obtain ⟨n, v⟩ := p
    by_cases h : n = name
    · rw [setField_cons_eq n v rest name value h, findField_cons,
        if_pos rfl]
    · rw [setField_cons_ne n v rest name value h, findField_cons,
        if_neg h]
      exact ih

theorem findField_setField_ne (fs : Fields) (name value other : String)
    (h : other ≠ name) :
    findField (setField fs name value) other = findField fs other := by
  induction fs with
  | nil =>
    rw [show setField [] name value = [(name, value)] from rfl,
      findField_cons, if_neg (fun he => h he.symm)]
  | cons p rest ih =>
    obtain ⟨n, v⟩ := p
    by_cases hn : n = name
    · rw [setField_cons_eq n v rest name value hn, findField_cons,
        if_neg (fun he => h he.symm),
        findField_eraseField_ne rest name other h, findField_cons,
        if_neg (fun he => h (he.symm.trans hn))]
    · rw [setField_cons_ne n v rest name value hn, findField_cons,
        findField_cons, ih]

/-! ## Theorems: C3 -/

/-- C3 counterexample: at a request carrying `Content-Length`,
`Content-Type`, `Content-Encoding` and `Expect`, the claim demands all
four be removed by the method-change rewrite; the code keeps
`Content-Length` (set to 0), keeps `Content-Encoding` and `Expect`, and
erases only `Content-Type` — unlike the spec-modelled rewrite.
Moreover the code's guard is the `--head` option, not the request
method: with `--head -X PUT` (method `PUT`, not HEAD) no rewrite
happens at all. -/
theorem C3_counterexample :
    findField (redirect_method_rewrite false true c3_req
      (Msg.urlencoded [97])).1.fields "Content-Length" = some "0"
    ∧ findField (redirect_method_rewrite false true c3_req
      (Msg.urlencoded [97])).1.fields "Content-Encoding" = some "gzip"
    ∧ findField (redirect_method_rewrite false true c3_req
      (Msg.urlencoded [97])).1.fields "Expect" = some "100-continue"
    ∧ findField (spec_redirect_method_rewrite true c3_req
      (Msg.urlencoded [97])).1.fields "Content-Length" = none
    ∧ findField (spec_redirect_method_rewrite true c3_req
      (Msg.urlencoded [97])).1.fields "Content-Encoding" = none
    ∧ findField (spec_redirect_method_rewrite true c3_req
      (Msg.urlencoded [97])).1.fields "Expect" = none
    ∧ redirect_method_rewrite true true c3_req_put (Msg.urlencoded [97])
      = (c3_req_put, Msg.urlencoded [97])
    ∧ c3_req_put.method = "PUT"
    ∧ (spec_redirect_method_rewrite true c3_req_put
        (Msg.urlencoded [97])).1.method = "GET" := by
  decide

/-- C3 (amended): when the redirect status required a method change and
the `--head` option was not supplied, the rewrite sets the method to
GET, sets `Content-Length` to `0`, erases `Content-Type`, drops the
body spec, and changes no other request header field (in particular
`Content-Encoding` and `Expect` are left as they were); when `--head`
was supplied or no method change was required, request and body are
untouched. -/
theorem C3_amended (req : Request) (msg : Msg) (other : String)
    (hf nmc : Bool) (hguard : hf = true ∨ nmc = false)
    (h1 : other ≠ "Content-Length") (h2 : other ≠ "Content-Type") :
    (redirect_method_rewrite false true req msg).1.method = "GET"
    ∧ findField (redirect_method_rewrite false true req msg).1.fields
        "Content-Length" = some "0"
    ∧ findField (redirect_method_rewrite false true req msg).1.fields
        "Content-Type" = none
    ∧ findField (redirect_method_rewrite false true req msg).1.fields
        other = findField req.fields other
    ∧ (redirect_method_rewrite false true req msg).2 = Msg.monostate
    ∧ (redirect_method_rewrite false true req msg).1.isHttp11
        = req.isHttp11
    ∧ (redirect_method_rewrite false true req msg).1.tgt = req.tgt
    ∧ redirect_method_rewrite hf nmc req msg = (req, msg) := by
  refine ⟨rfl, ?_, ?_, ?_, rfl, rfl, rfl, ?_⟩
  · simp only [redirect_method_rewrite]
    exact (findField_eraseField_ne _ _ _ (by decide)).trans
      (findField_setField_self _ _ _)
  · simp only [redirect_method_rewrite]
    exact findField_eraseField_self _ _
  · simp only [redirect_method_rewrite]
    exact (findField_eraseField_ne _ _ _ h2).trans
      (findField_setField_ne _ _ _ _ h1)
  · rcases hguard with h | h <;> simp [redirect_method_rewrite, h]

/-- C3 amended, instantiated: the concrete request `c3_req` with the
`Expect` field, rewritten under `--head` unset and a method-changing
status, and left alone under `--head` set. -/
theorem C3_amended_witness :
    (redirect_method_rewrite false true c3_req
      (Msg.urlencoded [97])).1.method = "GET"
    ∧ findField (redirect_method_rewrite false true c3_req
        (Msg.urlencoded [97])).1.fields "Content-Length" = some "0"
    ∧ findField (redirect_method_rewrite false true c3_req
        (Msg.urlencoded [97])).1.fields "Content-Type" = none
    ∧ findField (redirect_method_rewrite false true c3_req
        (Msg.urlencoded [97])).1.fields "Expect"
        = findField c3_req.fields "Expect"
    ∧ (redirect_method_rewrite false true c3_req
        (Msg.urlencoded [97])).2 = Msg.monostate
    ∧ (redirect_method_rewrite false true c3_req
        (Msg.urlencoded [97])).1.isHttp11 = c3_req.isHttp11
    ∧ (redirect_method_rewrite false true c3_req
        (Msg.urlencoded [97])).1.tgt = c3_req.tgt
    ∧ redirect_method_rewrite true true c3_req (Msg.urlencoded [97])
        = (c3_req, Msg.urlencoded [97]) :=
  C3_amended c3_req (Msg.urlencoded [97]) "Expect" true true
    (Or.inl rfl) (by decide) (by decide)

/-! ## Theorems: C5 -/

/-- C5 (confirmed): the boundary storage is generated exactly once per
form (appending parts never touches it) and, for every sequence of
draws of the uniform distribution, the 50-byte window is 2 leading
hyphens, 24 further hyphens, 22 characters of the 62-character
`[A-Za-z0-9]` alphabet (one distinct alphanumeric character per
distribution outcome, so uniform draws give uniform characters), and 2
trailing hyphens — hence the serialized delimiter (the first 48 bytes)
is hyphens followed by exactly 22 alphanumerics. -/
theorem C5_boundary (draw : Nat → Fin 62)
    (name value ct path : List Char) (sz : Nat) :
    (MultipartForm.mk_form draw).storage.length = 50
    ∧ (MultipartForm.mk_form draw).storage.take 26
        = List.replicate 26 '-'
    ∧ (((MultipartForm.mk_form draw).storage.drop 26).take 22).all
        (fun c => boundary_chars.contains c) = true
    ∧ (MultipartForm.mk_form draw).storage.drop 48 = ['-', '-']
    ∧ ((MultipartForm.mk_form draw).append_text name value ct).storage
        = (MultipartForm.mk_form draw).storage
    ∧ ((MultipartForm.mk_form draw).append_file name path ct sz).storage
        = (MultipartForm.mk_form draw).storage
    ∧ boundary_chars.length = 62
    ∧ boundary_chars.Nodup
    ∧ boundary_chars.all Char.isAlphanum = true := by
  have hst : (MultipartForm.mk_form draw).storage
      = List.replicate 26 '-'
        ++ ((List.range 22).map
              (fun i => boundary_chars.get (Fin.cast (by decide) (draw i)))
            ++ ['-', '-']) := by
    simp [MultipartForm.mk_form, generate_boundary]
  refine ⟨?_, ?_, ?_, ?_, rfl, rfl, by decide, by decide, by decide⟩
  · rw [hst]; simp
  · rw [hst, List.take_append_eq_append_take]; simp
  · rw [hst, List.drop_append_eq_append_drop]
    simp only [List.length_replicate, Nat.sub_self, List.drop_replicate,
      Nat.le_refl, List.drop_eq_nil_of_le, List.nil_append, Nat.min_self,
      List.drop_zero]
    rw [List.take_append_eq_append_take]
    simp only [List.length_map, List.length_range, Nat.sub_self,
      List.take_zero, List.append_nil]
    rw [List.all_eq_true]
    intro x hx
    have hx2 := List.take_subset 22 _ hx
    obtain ⟨i, _, rfl⟩ := List.mem_map.mp hx2
    simp [List.get_mem boundary_chars]
  · rw [hst, List.drop_append_eq_append_drop]
    simp [List.drop_append_eq_append_drop]

/-! ## Theorems: C7 -/

theorem hex_val_hex_digit (n : Nat) (h : n < 16) :
    hex_val (hex_digit n) = n := by
  unfold hex_digit hex_val
  split_ifs <;> omega

theorem is_pchar_37_false : is_pchar 37 = false := by decide

theorem pct_decode_plus_cons (c : Nat) (t : List Nat)
    (h37 : c ≠ 37) (h43 : c ≠ 43) :
    pct_decode_plus (c :: t) = c :: pct_decode_plus t := by
  rcases t with _ | ⟨a, t⟩
  · simp [pct_decode_plus, h37, h43]
  · simp [pct_decode_plus, h37, h43]

theorem pct_decode_encode_byte (b : Nat) (hb : b < 256) (hne : b ≠ 43)
    (t : List Nat) :
    pct_decode_plus (pct_encode_byte b ++ t) = b :: pct_decode_plus t := by
  unfold pct_encode_byte
  by_cases h32 : b = 32
  · subst h32
    rw [if_pos rfl]
    rfl
  · rw [if_neg h32]
    by_cases hp : is_pchar b = true
    · rw [if_pos hp]
      have hb37 : b ≠ 37 := by
        intro h; rw [h] at hp
        exact absurd hp (by decide)
      simp only [List.cons_append, List.nil_append]
      exact pct_decode_plus_cons b t hb37 hne
    · rw [if_neg hp]
      have hdiv : b / 16 < 16 := by omega
      have hmod : b % 16 < 16 := Nat.mod_lt _ (by norm_num)
      simp only [List.cons_append, List.nil_append]
      have heq : pct_decode_plus
          (37 :: hex_digit (b / 16) :: hex_digit (b % 16) :: t)
          = (16 * hex_val (hex_digit (b / 16))
              + hex_val (hex_digit (b % 16))) :: pct_decode_plus t := rfl
      rw [heq, hex_val_hex_digit _ hdiv, hex_val_hex_digit _ hmod]
      congr 1
      omega

/-- C7 counterexample: `'+'` (byte 43) is in the `pchars` set, so the
encoder emits it verbatim — exactly the byte it emits for a space.  The
decoder maps it back to a space: the encoder is not injective and the
round trip fails on the input `"+"`. -/
theorem C7_counterexample :
    urlencoded_encode [32] = [43]
    ∧ urlencoded_encode [43] = [43]
    ∧ pct_decode_plus (urlencoded_encode [43]) = [32]
    ∧ ([32] : List Nat) ≠ [43] := by
  decide

/-- C7 (amended): for every byte string that contains no `'+'` (byte
43), decoding the encoder's output (with `'+'` decoded back to space)
yields exactly the original bytes; on `'+'` itself the round trip
returns a space instead. -/
theorem C7_amended (s : List Nat) (h : ∀ b ∈ s, b < 256 ∧ b ≠ 43) :
    pct_decode_plus (urlencoded_encode s) = s := by
  induction s with
  | nil => rfl
  | cons b rest ih =>
    have hb := h b (List.mem_cons_self b rest)
    have hrest : ∀ x ∈ rest, x < 256 ∧ x ≠ 43 :=
      fun x hx => h x (List.mem_cons_of_mem b hx)
    have henc : urlencoded_encode (b :: rest)
        = pct_encode_byte b ++ urlencoded_encode rest := by
      simp [urlencoded_encode]
    rw [henc, pct_decode_encode_byte b hb.1 hb.2, ih hrest]

/-- C7 amended, instantiated at the bytes `"h %"` and 255 (a literal
pchar, a space, an escaped byte, a high byte). -/
theorem C7_amended_witness :
    pct_decode_plus (urlencoded_encode [104, 32, 37, 255])
      = [104, 32, 37, 255] :=
  C7_amended [104, 32, 37, 255] (by decide)

/-! ## Theorems: C6 -/

/-- C6: evaluation of `create_request` at the invocation
`--user bob:pw` on a URL with userinfo `alice:secret`.  The built
request's `Authorization` value is the raw credential string, not
`"Basic "` followed by its base64 (which would be
`"Basic Ym9iOnB3"`); and when only the URL userinfo supplies
credentials, no `Authorization` header is added at all. -/
theorem C6_code_eval :
    findField (create_request false c6_vm Msg.monostate c6_url).fields
      "Authorization" = some "bob:pw"
    ∧ spec_basic_authorization "bob:pw" = "Basic Ym9iOnB3"
    ∧ findField (create_request false c6_vm Msg.monostate c6_url).fields
        "Authorization" ≠ some (spec_basic_authorization "bob:pw")
    ∧ findField (create_request false c6_vm_nouser Msg.monostate
        c6_url).fields "Authorization" = none
    ∧ c6_url.userinfo = some "alice:secret" := by
  decide

/-! ## Theorems: C9 -/

/-- C9 (confirmed): when `--form` and `--data` are both supplied (and
the invocation gets past usage/URL/output checks), the configuration
phase throws exactly `"You can only select one HTTP request method"`,
exits with the non-zero code `EXIT_FAILURE = 1`, and never reaches
the `run` outcome — no request is built or attempted. -/
theorem C9_exclusive (parse : String → Option Url) (draw : Nat → Fin 62)
    (fs : List Char → Option (List Char)) (zlib : Bool) (vm : Vm)
    (s : String) (u : Url) (outputOk : Bool) (req : Request)
    (hf : vm.form ≠ []) (hd : vm.data ≠ [])
    (hh : vm.help = false) (hu : vm.url = some s)
    (hp : parse s = some u) :
    main_phase parse draw fs true zlib vm =
      MainResult.thrown "You can only select one HTTP request method"
    ∧ config_exit_code (main_phase parse draw fs true zlib vm) = some 1
    ∧ main_phase parse draw fs outputOk zlib vm ≠ MainResult.run req := by
  have hmain : ∀ ok : Bool, main_phase parse draw fs ok zlib vm =
      if vm.output.isSome && !ok then MainResult.outputError
      else MainResult.thrown "You can only select one HTTP request method" := by
    intro ok
    unfold main_phase
    rw [hh, hu]
    simp [hp, hf, hd]
  refine ⟨?_, ?_, ?_⟩
  · rw [hmain true]; simp
  · rw [hmain true]; simp [config_exit_code]
  · rw [hmain outputOk]
    by_cases hob : (vm.output.isSome && !outputOk) = true <;>
      simp [hob]

/-! ## Theorems: C9 witness, C1 -/

/-- C9, instantiated at an invocation carrying `--form a=b --data c=d`
and a well-formed URL. -/
theorem C9_exclusive_witness :
    main_phase (fun _ => some c6_url) draw0 (fun _ => none) true false
      c9_vm = MainResult.thrown "You can only select one HTTP request method"
    ∧ config_exit_code (main_phase (fun _ => some c6_url) draw0
        (fun _ => none) true false c9_vm) = some 1
    ∧ main_phase (fun _ => some c6_url) draw0 (fun _ => none) true false
        c9_vm ≠ MainResult.run (create_request false c9_vm Msg.monostate
          c6_url) :=
  C9_exclusive (fun _ => some c6_url) draw0 (fun _ => none) false c9_vm
    "http://h/" c6_url true
    (create_request false c9_vm Msg.monostate c6_url)
    (by decide) (by decide) rfl rfl rfl

set_option maxRecDepth 8000 in
/-- C1: evaluation of the multipart source at the one-text-part form
`--form a=bc`.  Driven with a single 200-byte buffer the source
produces 148 bytes, equal to `content_length()`.  Driven with buffer
sizes 95 and 200 — the first call stops inside the text value with
`step_ = 5` because the `goto content_type` path skipped the `++step_`
of cases 4..6 — the resumed call re-enters at case 5
(`copy(filename(value))`) instead of case 10 and the source produces
155 bytes, a different byte sequence: the output is neither independent
of the buffer split nor equal to `content_length()`. -/
theorem C1_resumption_bug :
    c1_form.content_length = 148
    ∧ (source_drive c1_form.storage fs0 c1_form.parts 0 0 [200]).2 = true
    ∧ (source_drive c1_form.storage fs0 c1_form.parts 0 0 [200]).1.length
        = 148
    ∧ (source_drive c1_form.storage fs0 c1_form.parts 0 0 [95, 200]).2
        = true
    ∧ (source_drive c1_form.storage fs0 c1_form.parts 0 0
        [95, 200]).1.length = 155
    ∧ (source_drive c1_form.storage fs0 c1_form.parts 0 0 [95, 200]).1
        ≠ (source_drive c1_form.storage fs0 c1_form.parts 0 0 [200]).1 := by
  decide
